import Mathlib

/-!
Shallow embedding of the AVM aggregation core of the real-estate-core
repository (src/experiments/2025/vsc-ab/lib/avm-aggregator.ts, with the
ScrapingUtils helpers recorded in the repository implementation-summary
document). JavaScript numbers are modelled as rationals wherever the code
performs exact arithmetic; Math.sqrt forces the confidence adjustment into
the reals. Math.round(x) is floor(x + 1/2) on nonnegative finite numbers,
which is the only regime reached here.
-/

namespace AVM

/-- AVMData from scraping-utils: one provider valuation to be persisted. -/
structure AVMData where
  provider : String
  estimate : ℚ
  confidence : Option ℚ
  lowRange : Option ℚ
  highRange : Option ℚ
deriving DecidableEq

/-- One row of the avmEstimates list handled by the aggregator, as mapped
from the database in fetchAVMEstimates and getPropertyAnalysis. -/
structure Estimate where
  provider : String
  estimate : ℚ
  confidence : Option ℚ
  lowRange : Option ℚ
  highRange : Option ℚ
  lastUpdated : ℕ
deriving DecidableEq

/-- PropertyData extracted by a scraper; only its presence matters to the
orchestrator, which checks result.data?.property for truthiness. -/
structure PropertyData where
  address : String
  city : String
  state : String
  zipCode : String
deriving DecidableEq

/-- The data field of a ScrapingResult is untyped in the source; the
orchestrator only inspects its property field, which may be absent. -/
structure ProviderPayload where
  property : Option PropertyData
deriving DecidableEq

/-- ScrapingResult from scraping-utils: success flag, untyped data (null
when absent), optional error message, duration in milliseconds. -/
structure ScrapingResult where
  success : Bool
  data : Option ProviderPayload
  error : Option String
  duration : ℕ
deriving DecidableEq

/-- The estimateRange component of the analysis metrics. -/
structure EstimateRange where
  min : ℚ
  max : ℚ
deriving DecidableEq

/-- The confidence component of the analysis metrics: overall rounded
score and the per-provider map (modelled as an insertion-ordered
association list, matching JavaScript object key order). -/
structure ConfidenceInfo where
  overall : ℤ
  byProvider : List (String × ℚ)
deriving DecidableEq

/-- Return value of calculateAnalysisMetrics. -/
structure AnalysisMetrics where
  averageEstimate : ℤ
  estimateRange : EstimateRange
  confidence : ConfidenceInfo
deriving DecidableEq

/-- The configured provider list of AVMAggregator (names only; the scraper
implementations are external behaviors passed in as parameters). -/
def SCRAPERS : List String :=
  ["homes_com", "zillow", "movoto", "redfin", "realtor_com"]

/-- Concurrency limit handed to pLimit. -/
def CONCURRENT_SCRAPERS : ℕ := 2

/-- Maximum attempt count of the retry loop. -/
def RETRY_ATTEMPTS : ℕ := 2

/-- JavaScript truthiness of an optional numeric field: undefined and 0
are falsy, every other number is truthy. -/
def jsTruthyNum (c : Option ℚ) : Bool :=
  match c with
  | none => false
  | some v => decide (v ≠ 0)

/-- Math.round on an exact rational value. -/
def roundQ (q : ℚ) : ℤ := ⌊q + 1/2⌋

/-- Math.round on a real value (needed once Math.sqrt is involved). -/
noncomputable def jsRound (x : ℝ) : ℤ := ⌊x + 1/2⌋

/-- isValidPrice from scraping-utils: non-null, positive, and below the
50,000,000 sanity ceiling. -/
def isValidPrice (price : Option ℚ) : Bool :=
  match price with
  | none => false
  | some p => decide (0 < p) && decide (p < 50000000)

/-- Math.min spread over a list of values; the empty case is never
reached by the aggregator (it guards on a nonempty valid list). -/
def listMin : List ℚ → ℚ
  | [] => 0
  | h :: t => t.foldl min h

/-- Math.max spread over a list of values. -/
def listMax : List ℚ → ℚ
  | [] => 0
  | h :: t => t.foldl max h

/-- getDefaultConfidence: the fixed provider-reliability table, with 65
for any provider not listed. -/
def getDefaultConfidence (provider : String) : ℚ :=
  if provider = "homes_com_corelogic" then 85
  else if provider = "homes_com_collateral" then 80
  else if provider = "homes_com_quantarium" then 75
  else if provider = "homes_com_regeodata" then 70
  else if provider = "homes_com_homesgenie" then 65
  else if provider = "zillow" then 80
  else if provider = "redfin" then 85
  else if provider = "realtor_com" then 75
  else if provider = "movoto" then 70
  else 65

/-- Assignment into a JavaScript object keyed by provider: replaces the
value at an existing key in place, otherwise appends a new key. -/
def upsertAssoc (m : List (String × ℚ)) (k : String) (v : ℚ) : List (String × ℚ) :=
  if m.any (fun p => p.1 = k) then
    m.map (fun p => if p.1 = k then (k, v) else p)
  else m ++ [(k, v)]

/-- One iteration of the confidence loop of calculateAnalysisMetrics:
the accumulator is (byProvider map, totalConfidence, confidenceCount).
The branch condition is the JavaScript truthiness of est.confidence. -/
def confidenceStep (acc : List (String × ℚ) × ℚ × ℕ) (est : Estimate) :
    List (String × ℚ) × ℚ × ℕ :=
  if jsTruthyNum est.confidence then
    let c := est.confidence.getD 0
    (upsertAssoc acc.1 est.provider c, acc.2.1 + c, acc.2.2 + 1)
  else
    let d := getDefaultConfidence est.provider
    (upsertAssoc acc.1 est.provider d, acc.2.1 + d, acc.2.2 + 1)

/-- The variance computed inside calculateStandardDeviation: mean, squared
differences, divided by the population size. -/
def calculateVariance (values : List ℚ) : ℚ :=
  let mean := values.sum / values.length
  ((values.map (fun v => (v - mean) ^ 2)).sum) / values.length

/-- calculateStandardDeviation: zero for lists of length at most one,
otherwise the square root of the population variance. -/
noncomputable def calculateStandardDeviation (values : List ℚ) : ℝ :=
  if values.length ≤ 1 then 0
  else Real.sqrt (calculateVariance values)

/-- The consistency multiplier of calculateAnalysisMetrics, as a function
of the valid estimate values: one minus the coefficient of variation,
floored at one half. The mean here is the same averageEstimate the
enclosing function computes over the same values. -/
noncomputable def consistencyMultiplier (values : List ℚ) : ℝ :=
  max (1/2) (1 - calculateStandardDeviation values / ((values.sum / values.length : ℚ) : ℝ))

/-- The degenerate result returned when no (valid) estimates exist. -/
def degenerateMetrics : AnalysisMetrics :=
  { averageEstimate := 0
    estimateRange := { min := 0, max := 0 }
    confidence := { overall := 0, byProvider := [] } }

/-- calculateAnalysisMetrics, line for line: early degenerate returns,
filter to valid prices, mean, range, the confidence loop, and the
consistency-adjusted rounded overall confidence. -/
noncomputable def calculateAnalysisMetrics (estimates : List Estimate) : AnalysisMetrics :=
  if estimates.length = 0 then degenerateMetrics
  else
    let validEstimates := estimates.filter (fun est => isValidPrice (some est.estimate))
    if validEstimates.length = 0 then degenerateMetrics
    else
      let averageEstimate : ℚ := (validEstimates.map (·.estimate)).sum / validEstimates.length
      let estimateValues := validEstimates.map (·.estimate)
      let estimateRange : EstimateRange :=
        { min := listMin estimateValues, max := listMax estimateValues }
      let loopOut := validEstimates.foldl confidenceStep ([], 0, 0)
      let confidenceByProvider := loopOut.1
      let totalConfidence := loopOut.2.1
      let confidenceCount := loopOut.2.2
      let overallConfidence : ℚ :=
        if 0 < confidenceCount then totalConfidence / confidenceCount else 0
      let adjustedConfidence : ℝ :=
        (overallConfidence : ℝ) * consistencyMultiplier estimateValues
      { averageEstimate := roundQ averageEstimate
        estimateRange := estimateRange
        confidence :=
          { overall := jsRound adjustedConfidence
            byProvider := confidenceByProvider } }

/-- Outcome of one scraper call: either a returned ScrapingResult or a
thrown error with a message. One provider behavior is a function from the
1-based attempt number to the outcome of that attempt. -/
inductive AttemptOutcome where
  | ok (r : ScrapingResult)
  | thrown (msg : String)
deriving DecidableEq

/-- The result the catch block of the retry loop builds from a thrown
error: success false, null data, the error message, duration 0. -/
def mkThrownResult (msg : String) : ScrapingResult :=
  { success := false, data := none, error := some msg, duration := 0 }

/-- The attempt is terminally unsuccessful: either an explicit failure
result or a thrown error. -/
def attemptFailed : AttemptOutcome → Prop
  | .ok r => r.success = false
  | .thrown _ => True

instance : DecidablePred attemptFailed := by
  intro o
  cases o with
  | ok r => exact inferInstanceAs (Decidable (r.success = false))
  | thrown msg => exact inferInstanceAs (Decidable True)

/-- The do-while retry loop of analyzeProperty, one unfolding per unit of
fuel. The state is the attempt counter so far and the list of backoff
delays performed (in milliseconds, in order). A returned failure schedules
a delay of baseDelay times the attempt number when attempts remain; a
thrown error is converted by the catch block and retried with no delay.
The loop exits on the first success or when attempts reach maxRetries.
Fuel equal to maxRetries is enough, so the fuel-exhausted arm is never
reached from retryRun. -/
def retryStep (scrape : ℕ → AttemptOutcome) (maxRetries baseDelay : ℕ) :
    ℕ → ℕ → List ℕ → ScrapingResult × ℕ × List ℕ
  | 0, attempts, delays => (mkThrownResult "out of fuel", attempts, delays)
  | fuel + 1, attempts, delays =>
    let a := attempts + 1
    match scrape a with
    | .ok r =>
      if r.success then (r, a, delays)
      else
        let delays2 := if a < maxRetries then delays ++ [baseDelay * a] else delays
        if a < maxRetries then retryStep scrape maxRetries baseDelay fuel a delays2
        else (r, a, delays2)
    | .thrown msg =>
      let r := mkThrownResult msg
      if a < maxRetries then retryStep scrape maxRetries baseDelay fuel a delays
      else (r, a, delays)

/-- The retry-wrapped scraper task as configured by the aggregator:
RETRY_ATTEMPTS attempts, 2000ms base delay. Returns the terminal result,
the number of attempts consumed, and the backoff delays performed. -/
def retryRun (scrape : ℕ → AttemptOutcome) : ScrapingResult × ℕ × List ℕ :=
  retryStep scrape RETRY_ATTEMPTS 2000 RETRY_ATTEMPTS 0 []

/-- The propertyId-selection test of analyzeProperty on one entry of
scrapingResults: result.success and result.data?.property both truthy. -/
def hasProperty (r : ScrapingResult) : Bool :=
  r.success &&
    (match r.data with
     | none => false
     | some d => d.property.isSome)

/-- generatePropertyHash from scraping-utils: the MD5 digest of the
lowercased underscore-joined address components. The MD5 primitive is an
external crypto-library call and is passed in as a parameter. -/
def generatePropertyHash (md5 : String → String)
    (address city state zipCode : String) : String :=
  md5 (address.toLower ++ "_" ++ city.toLower ++ "_" ++ state.toLower ++ "_" ++ zipCode)

/-- fetchAVMEstimates: the database read outcome is a parameter; a thrown
read error is caught and degrades to the empty estimate list. -/
def fetchAVMEstimates (dbRead : Except String (List Estimate)) : List Estimate :=
  match dbRead with
  | .ok l => l
  | .error _ => []

/-- Return value of analyzeProperty and getPropertyAnalysis (the
analysisTimestamp field, a wall-clock Date, is omitted). -/
structure PropertyAnalysisResult where
  propertyId : String
  address : String
  city : String
  state : String
  zipCode : String
  avmEstimates : List Estimate
  averageEstimate : ℤ
  estimateRange : EstimateRange
  confidence : ConfidenceInfo
  scrapingResults : List (String × ScrapingResult)
deriving DecidableEq

/-- The fan-out of analyzeProperty: one limiter-guarded retry-wrapped
task per configured provider, every task recording its terminal result
under its own provider name. Completion order does not affect the
collected map, so it is listed in provider order. -/
def runScrapers (scrape : String → ℕ → AttemptOutcome) :
    List (String × ScrapingResult) :=
  SCRAPERS.map (fun name => (name, (retryRun (scrape name)).1))

/-- analyzeProperty: run every configured scraper through the retry
controller, collect one terminal result per provider name, and fail the
run exactly when no collected result passes the hasProperty test;
otherwise derive the property hash, read the stored estimates, reconcile
them and assemble the result. The external scraper behaviors, the MD5
primitive and the database read outcome are parameters. -/
noncomputable def analyzeProperty (scrape : String → ℕ → AttemptOutcome)
    (md5 : String → String) (dbRead : Except String (List Estimate))
    (address city state zipCode : String) :
    Except String PropertyAnalysisResult :=
  let scrapingResults := runScrapers scrape
  if scrapingResults.any (fun p => hasProperty p.2) then
    let propertyId := generatePropertyHash md5 address city state zipCode
    let avmEstimates := fetchAVMEstimates dbRead
    let analysis := calculateAnalysisMetrics avmEstimates
    .ok
      { propertyId := propertyId
        address := address
        city := city
        state := state
        zipCode := zipCode
        avmEstimates := avmEstimates
        averageEstimate := analysis.averageEstimate
        estimateRange := analysis.estimateRange
        confidence := analysis.confidence
        scrapingResults := scrapingResults }
  else .error "Failed to identify property from any scraping source"

/-- Observable side effects of one analyzeProperty run: per-provider
estimate upserts and the reconciliation step. -/
inductive RunEvent where
  | upsertEstimate (propertyId provider : String)
  | reconcile
deriving DecidableEq

/-- Modelled from the spec: each successful provider outcome triggers an
upsert of that provider estimate keyed by (propertyId, provider); the
scraper implementations that perform these persistence writes are not
under src, so the effect is taken from the spec wording. The propertyId
every scraper derives is the same deterministic address hash. -/
def runUpsertEvents (propertyId : String)
    (scrapingResults : List (String × ScrapingResult)) : List RunEvent :=
  (scrapingResults.filter (fun p => p.2.success)).map
    (fun p => RunEvent.upsertEstimate propertyId p.1)

/-- Modelled from the spec: the event trace of one analyzeProperty run.
The upserts of the successful providers happen during scraping, before
the orchestrator returns; reconciliation is reached only when some
provider identified the property (the same branch analyzeProperty
takes). -/
def analyzePropertyTrace (scrape : String → ℕ → AttemptOutcome)
    (md5 : String → String) (address city state zipCode : String) : List RunEvent :=
  let scrapingResults := runScrapers scrape
  let upserts := runUpsertEvents (generatePropertyHash md5 address city state zipCode)
    scrapingResults
  if scrapingResults.any (fun p => hasProperty p.2) then upserts ++ [RunEvent.reconcile]
  else upserts

/-- saveAVMEstimate from scraping-utils, as a pure function of an opaque
store modelled as an association list keyed by (propertyId, provider):
create-or-replace-current semantics of the prisma upsert. -/
def saveAVMEstimate (store : List ((String × String) × AVMData))
    (propertyId : String) (avm : AVMData) : List ((String × String) × AVMData) :=
  if store.any (fun p => p.1 = (propertyId, avm.provider)) then
    store.map (fun p =>
      if p.1 = (propertyId, avm.provider) then ((propertyId, avm.provider), avm) else p)
  else store ++ [((propertyId, avm.provider), avm)]

/-- Lookup of the current record at a key of the modelled store. -/
def assocLookup (store : List ((String × String) × AVMData))
    (key : String × String) : Option AVMData :=
  (store.find? (fun p => p.1 = key)).map (·.2)

/-- One stored property row with its estimates, as read by
getPropertyAnalysis. -/
structure StoredProperty where
  id : String
  address : String
  city : String
  state : String
  zipCode : String
  avmEstimates : List Estimate

/-- getPropertyAnalysis: the whole body sits in a try/catch whose catch
returns null, and the only fallible step is the database read, passed in
as a parameter; a missing property also returns null, and otherwise the
stored estimates are reconciled with an empty scrapingResults map. -/
noncomputable def getPropertyAnalysis
    (dbRead : Except String (Option StoredProperty)) :
    Option PropertyAnalysisResult :=
  match dbRead with
  | .error _ => none
  | .ok none => none
  | .ok (some property) =>
    let avmEstimates := property.avmEstimates
    let analysis := calculateAnalysisMetrics avmEstimates
    some
      { propertyId := property.id
        address := property.address
        city := property.city
        state := property.state
        zipCode := property.zipCode
        avmEstimates := avmEstimates
        averageEstimate := analysis.averageEstimate
        estimateRange := analysis.estimateRange
        confidence := analysis.confidence
        scrapingResults := [] }

/-- Modelled from the spec: the state of the pLimit concurrency limiter
(the p-limit library itself is an external dependency, not under src).
running counts in-flight operations; queue holds submitted-but-waiting
task ids in arrival order; admitted and submitted record the admission
and submission orders. -/
structure LimiterState where
  running : ℕ
  queue : List ℕ
  admitted : List ℕ
  submitted : List ℕ
deriving DecidableEq

/-- The limiter before any submission. -/
def limiterInit : LimiterState :=
  { running := 0, queue := [], admitted := [], submitted := [] }

/-- Modelled from the spec: the transitions of the limiter with capacity
K. A submission starts immediately when a slot is free and nothing is
queued, otherwise it joins the back of the queue; a completion frees a
slot, and when work is queued the head of the queue is admitted into the
freed slot. -/
inductive LimiterStep (K : ℕ) : LimiterState → LimiterState → Prop
  | submitRun (s : LimiterState) (t : ℕ) (hr : s.running < K) (hq : s.queue = []) :
      LimiterStep K s
        { running := s.running + 1, queue := []
          admitted := s.admitted ++ [t], submitted := s.submitted ++ [t] }
  | submitWait (s : LimiterState) (t : ℕ) (h : ¬ (s.running < K ∧ s.queue = [])) :
      LimiterStep K s
        { running := s.running, queue := s.queue ++ [t]
          admitted := s.admitted, submitted := s.submitted ++ [t] }
  | finishIdle (s : LimiterState) (hr : 0 < s.running) (hq : s.queue = []) :
      LimiterStep K s
        { running := s.running - 1, queue := []
          admitted := s.admitted, submitted := s.submitted }
  | finishNext (s : LimiterState) (t : ℕ) (rest : List ℕ)
      (hr : 0 < s.running) (hq : s.queue = t :: rest) :
      LimiterStep K s
        { running := s.running, queue := rest
          admitted := s.admitted ++ [t], submitted := s.submitted }

/-- States the limiter can reach from its initial state. -/
def LimiterReachable (K : ℕ) (s : LimiterState) : Prop :=
  Relation.ReflTransGen (LimiterStep K) limiterInit s

/-- The single confidence value one valid estimate contributes to the
confidence computation: its own recorded confidence when that field is
truthy, otherwise the provider default. This is the specification-side
reading of one pass of the confidence loop. -/
def contributedConfidence (est : Estimate) : ℚ :=
  match est.confidence with
  | some c => if c = 0 then getDefaultConfidence est.provider else c
  | none => getDefaultConfidence est.provider

/-- Concrete fixture for the exact reconciliation example: estimates
300000, 310000, 290000 with recorded confidences 80, 85, 70. -/
def exampleEstimates : List Estimate :=
  [{ provider := "p1", estimate := 300000, confidence := some 80
     lowRange := none, highRange := none, lastUpdated := 0 },
   { provider := "p2", estimate := 310000, confidence := some 85
     lowRange := none, highRange := none, lastUpdated := 0 },
   { provider := "p3", estimate := 290000, confidence := some 70
     lowRange := none, highRange := none, lastUpdated := 0 }]

/-- A provider behavior that throws on every attempt. -/
def scrapeThrowAlways : ℕ → AttemptOutcome := fun _ => .thrown "network error"

/-- An explicit failure result as a scraper returns it. -/
def failResult : ScrapingResult :=
  { success := false, data := none, error := some "blocked", duration := 120 }

/-- A provider behavior that fails with an explicit result on every
attempt. -/
def scrapeFailAlways : ℕ → AttemptOutcome := fun _ => .ok failResult

/-- Property data of the concrete example address. -/
def examplePropertyData : PropertyData :=
  { address := "1 Main St", city := "Springfield", state := "IL", zipCode := "62701" }

/-- A successful result whose payload identified the property. -/
def okResult : ScrapingResult :=
  { success := true
    data := some { property := some examplePropertyData }
    error := none, duration := 50 }

/-- A provider behavior that succeeds on every attempt. -/
def scrapeOkAlways : ℕ → AttemptOutcome := fun _ => .ok okResult

/-- A successful result whose untyped payload carries no property field. -/
def successNoProperty : ScrapingResult :=
  { success := true, data := some { property := none }, error := none, duration := 40 }

/-- Every provider succeeds but no payload carries property data. -/
def scrapeSuccessNoProperty : String → ℕ → AttemptOutcome :=
  fun _ _ => .ok successNoProperty

/-- Every provider throws on every attempt. -/
def scrapeAllThrown : String → ℕ → AttemptOutcome := fun _ _ => .thrown "blocked"

/-- A mixed run: zillow identifies the property, redfin fails explicitly,
every other provider throws. -/
def scrapeMixed : String → ℕ → AttemptOutcome := fun name _ =>
  if name = "zillow" then .ok okResult
  else if name = "redfin" then .ok failResult
  else .thrown "proxy down"

/-- A database read that finds no stored estimates. -/
def dbEmptyRead : Except String (List Estimate) := .ok []

/-- Valid estimate whose recorded confidence is 0, from a provider absent
from the reliability table. -/
def zeroConfidenceEstimate : Estimate :=
  { provider := "unlisted_provider", estimate := 100, confidence := some 0
    lowRange := none, highRange := none, lastUpdated := 0 }

/-- A concrete valuation to be persisted in witnesses. -/
def exampleAVMData : AVMData :=
  { provider := "zillow", estimate := 500000, confidence := some 80
    lowRange := none, highRange := none }

/-- One pass of the confidence loop adds exactly the contributed
confidence of the estimate to the running total, increments the count,
and records the same value in the per-provider map. -/
theorem confidenceStep_eq (acc : List (String × ℚ) × ℚ × ℕ) (est : Estimate) :
    confidenceStep acc est =
      (upsertAssoc acc.1 est.provider (contributedConfidence est),
       acc.2.1 + contributedConfidence est, acc.2.2 + 1) := by
  rcases hconf : est.confidence with _ | v
  · simp [confidenceStep, jsTruthyNum, contributedConfidence, hconf]
  · by_cases hv : v = 0
    · simp [confidenceStep, jsTruthyNum, contributedConfidence, hconf, hv]
    · simp [confidenceStep, jsTruthyNum, contributedConfidence, hconf, hv]

/-- The confidence loop totals the per-estimate contributions, counts
one contribution per estimate, and writes the same per-estimate value
into the per-provider map. -/
theorem confidenceLoop_spec (l : List Estimate) (m : List (String × ℚ)) (t : ℚ) (n : ℕ) :
    (l.foldl confidenceStep (m, t, n)).2.1 = t + (l.map contributedConfidence).sum
      ∧ (l.foldl confidenceStep (m, t, n)).2.2 = n + l.length
      ∧ (l.foldl confidenceStep (m, t, n)).1 =
          l.foldl (fun mm e => upsertAssoc mm e.provider (contributedConfidence e)) m := by
  induction l generalizing m t n with
  | nil => simp
  | cons e tl ih =>
    simp only [List.foldl_cons, confidenceStep_eq, List.map_cons, List.sum_cons,
      List.length_cons]
    rcases ih (upsertAssoc m e.provider (contributedConfidence e))
      (t + contributedConfidence e) (n + 1) with ⟨h1, h2, h3⟩
    refine ⟨?_, ?_, h3⟩
    · rw [h1]; ring
    · rw [h2]; omega

/-- Replacing every entry at a key that occurs in the list leaves the
replacement as the first record found at that key. -/
theorem find_after_replace (l : List ((String × String) × AVMData))
    (key : String × String) (v : AVMData)
    (h : l.any (fun p => p.1 = key) = true) :
    (l.map (fun p => if p.1 = key then (key, v) else p)).find?
      (fun p => p.1 = key) = some (key, v) := by
  induction l with
  | nil => simp at h
  | cons hd tl ih =>
    by_cases hhd : hd.1 = key
    · simp [hhd]
    · simp only [List.any_cons, Bool.or_eq_true, decide_eq_true_eq] at h
      rcases h with h | h
      · exact absurd h hhd
      · simpa [hhd] using ih h

/-- Appending a record at an absent key makes it the first record found
at that key. -/
theorem find_after_append (l : List ((String × String) × AVMData))
    (key : String × String) (v : AVMData)
    (h : l.any (fun p => p.1 = key) = false) :
    ((l ++ [(key, v)]).find? (fun p => p.1 = key)) = some (key, v) := by
  induction l with
  | nil => simp
  | cons hd tl ih =>
    simp only [List.any_cons, Bool.or_eq_false_iff, decide_eq_false_iff_not] at h
    simpa [h.1] using ih (by simpa using h.2)

/-- After an upsert, the current record at the upserted key is exactly
the new estimate, whether the key already existed or not. -/
theorem assocLookup_saveAVMEstimate (store : List ((String × String) × AVMData))
    (propertyId : String) (avm : AVMData) :
    assocLookup (saveAVMEstimate store propertyId avm) (propertyId, avm.provider)
      = some avm := by
  by_cases hany : store.any (fun p => p.1 = (propertyId, avm.provider))
  · unfold saveAVMEstimate assocLookup
    rw [if_pos hany, find_after_replace store _ avm hany]
    rfl
  · unfold saveAVMEstimate assocLookup
    rw [if_neg hany,
      find_after_append store _ avm (Bool.eq_false_iff.mpr hany)]
    rfl

/-- C5: reconciliation keeps only estimates strictly between 0 and the
50,000,000 ceiling, and any input with no valid estimate, the empty list
included, yields exactly the degenerate result with average 0, range
{0,0}, overall confidence 0 and an empty per-provider map. -/
theorem validity_filter_and_degenerate_result (estimates : List Estimate)
    (h : estimates.filter (fun est => isValidPrice (some est.estimate)) = [])
    (q : ℚ) :
    calculateAnalysisMetrics estimates =
      { averageEstimate := 0
        estimateRange := { min := 0, max := 0 }
        confidence := { overall := 0, byProvider := [] } }
      ∧ (isValidPrice (some q) = true ↔ 0 < q ∧ q < 50000000) := by
  constructor
  · show calculateAnalysisMetrics estimates = degenerateMetrics
    unfold calculateAnalysisMetrics
    by_cases h0 : estimates.length = 0
    · simp [h0]
    · simp [h0, h]
  · simp [isValidPrice]

/-- Witness: a single out-of-range estimate filters to nothing and 7 is a
valid price. -/
theorem validity_filter_and_degenerate_result_witness :
    calculateAnalysisMetrics
        [{ provider := "x", estimate := -5, confidence := none
           lowRange := none, highRange := none, lastUpdated := 0 }] =
      { averageEstimate := 0
        estimateRange := { min := 0, max := 0 }
        confidence := { overall := 0, byProvider := [] } }
      ∧ (isValidPrice (some 7) = true ↔ (0:ℚ) < 7 ∧ (7:ℚ) < 50000000) :=
  validity_filter_and_degenerate_result _ (by decide) 7

/-- C10: a thrown persistence read and an unknown property are both
reported as null by getPropertyAnalysis, so the two cases are
indistinguishable to the caller. -/
theorem getPropertyAnalysis_null_on_error (e : String) :
    getPropertyAnalysis (.error e) = none
      ∧ getPropertyAnalysis (.ok none) = none
      ∧ getPropertyAnalysis (.error e) = getPropertyAnalysis (.ok none) :=
  ⟨rfl, rfl, rfl⟩

/-- Witness: the claim instantiated at a concrete read error. -/
theorem getPropertyAnalysis_null_on_error_witness :
    getPropertyAnalysis (.error "database timeout") = none
      ∧ getPropertyAnalysis (.ok none) = none
      ∧ getPropertyAnalysis (.error "database timeout") = getPropertyAnalysis (.ok none) :=
  getPropertyAnalysis_null_on_error "database timeout"

/-- Closed form of the two-attempt retry loop: stop immediately on a
first-attempt success; otherwise run the second attempt, with a 2000ms
backoff recorded only when the first attempt failed by returning an
explicit failure result, not by throwing. -/
theorem retryRun_eq (scrape : ℕ → AttemptOutcome) :
    retryRun scrape =
      match scrape 1 with
      | .ok r1 =>
        if r1.success then (r1, 1, ([] : List ℕ))
        else
          (match scrape 2 with
           | .ok r2 => (r2, 2, [2000])
           | .thrown m2 => (mkThrownResult m2, 2, [2000]))
      | .thrown _ =>
        (match scrape 2 with
         | .ok r2 => (r2, 2, ([] : List ℕ))
         | .thrown m2 => (mkThrownResult m2, 2, [])) := by
  rcases h1 : scrape 1 with r1 | m1
  · rcases h2 : scrape 2 with r2 | m2
    · by_cases hs1 : r1.success <;>
        simp [retryRun, RETRY_ATTEMPTS, retryStep, h1, h2, hs1]
    · by_cases hs1 : r1.success <;>
        simp [retryRun, RETRY_ATTEMPTS, retryStep, h1, h2, hs1]
  · rcases h2 : scrape 2 with r2 | m2 <;>
      simp [retryRun, RETRY_ATTEMPTS, retryStep, h1, h2]

/-- C3 counterexample: a provider that throws on every attempt is indeed
attempted twice, but the retry is performed with no backoff delay at all,
against the claimed 2000ms-per-attempt wait before each retry. -/
theorem retry_policy_counterexample :
    attemptFailed (scrapeThrowAlways 1) ∧ attemptFailed (scrapeThrowAlways 2)
      ∧ (retryRun scrapeThrowAlways).2.1 = 2
      ∧ (retryRun scrapeThrowAlways).2.2 = []
      ∧ ([] : List ℕ) ≠ [2000 * 1] :=
  ⟨trivial, trivial, by decide, by decide, by decide⟩

/-- C3 amended: an always-failing provider is attempted exactly
RETRY_ATTEMPTS = 2 times; the inter-attempt backoff of baseDelay times
the attempt number is waited only when the failed attempt returned an
explicit failure result, while a thrown attempt is retried immediately
with no delay; and the loop stops on the first successful attempt. -/
theorem retry_policy_amended (scrape : ℕ → AttemptOutcome)
    (hfail : ∀ n, attemptFailed (scrape n))
    (scrapeOk : ℕ → AttemptOutcome) (r : ScrapingResult)
    (hok : scrapeOk 1 = .ok r) (hs : r.success = true) :
    (retryRun scrape).2.1 = RETRY_ATTEMPTS
      ∧ (retryRun scrape).2.2 =
          (match scrape 1 with
           | .ok _ => [2000 * 1]
           | .thrown _ => [])
      ∧ retryRun scrapeOk = (r, 1, []) := by
  refine ⟨?_, ?_, ?_⟩
  · rw [retryRun_eq scrape]
    rcases h1 : scrape 1 with r1 | m1
    · have hf1 := hfail 1; rw [h1] at hf1
      have hf1e : r1.success = false := hf1
      rcases h2 : scrape 2 with r2 | m2 <;> simp [hf1e, RETRY_ATTEMPTS]
    · rcases h2 : scrape 2 with r2 | m2 <;> simp [RETRY_ATTEMPTS]
  · rw [retryRun_eq scrape]
    rcases h1 : scrape 1 with r1 | m1
    · have hf1 := hfail 1; rw [h1] at hf1
      have hf1e : r1.success = false := hf1
      rcases h2 : scrape 2 with r2 | m2 <;> simp [hf1e]
    · rcases h2 : scrape 2 with r2 | m2 <;> simp
  · rw [retryRun_eq scrapeOk, hok]
    simp [hs]

/-- Witness: an explicit-failure provider gets both attempts with the
2000ms backoff, and an immediately successful provider is attempted
once. -/
theorem retry_policy_witness :
    (retryRun scrapeFailAlways).2.1 = RETRY_ATTEMPTS
      ∧ (retryRun scrapeFailAlways).2.2 = [2000 * 1]
      ∧ retryRun scrapeOkAlways = (okResult, 1, []) := by
  have h := retry_policy_amended scrapeFailAlways (fun _ => rfl)
    scrapeOkAlways okResult rfl rfl
  exact ⟨h.1, h.2.1, h.2.2⟩

/-- C8: over any nonempty set of positive (valid) estimate values the
consistency multiplier max(0.5, 1 - stdDev/mean) stays within [0.5, 1],
and on the divergent pair [100000, 900000] it is exactly 0.5. -/
theorem consistencyMultiplier_bounds (values : List ℚ) (_hne : values ≠ [])
    (hpos : ∀ v ∈ values, 0 < v) :
    1/2 ≤ consistencyMultiplier values
      ∧ consistencyMultiplier values ≤ 1
      ∧ consistencyMultiplier [100000, 900000] = 1/2 := by
  have hsd : 0 ≤ calculateStandardDeviation values := by
    unfold calculateStandardDeviation
    split
    · exact le_refl 0
    · exact Real.sqrt_nonneg _
  have hmean : (0:ℝ) ≤ ((values.sum / (values.length : ℚ) : ℚ) : ℝ) := by
    have h1 : (0:ℚ) ≤ values.sum := List.sum_nonneg (fun v hv => (hpos v hv).le)
    have h2 : (0:ℚ) ≤ values.sum / (values.length : ℚ) :=
      div_nonneg h1 (by positivity)
    exact_mod_cast h2
  refine ⟨le_max_left _ _, ?_, ?_⟩
  · exact max_le (by norm_num)
      (sub_le_self 1 (div_nonneg hsd hmean))
  · have hvar : calculateVariance [(100000:ℚ), 900000] = 160000000000 := by
      unfold calculateVariance
      norm_num
    have hsd2 : calculateStandardDeviation [(100000:ℚ), 900000] = 400000 := by
      unfold calculateStandardDeviation
      rw [if_neg (by norm_num), hvar]
      have hc : (((160000000000:ℚ)):ℝ) = (400000:ℝ) ^ 2 := by norm_num
      rw [hc, Real.sqrt_sq (by norm_num)]
    unfold consistencyMultiplier
    rw [hsd2]
    norm_num

/-- Witness: the bounds and the exact floor value at the divergent
pair. -/
theorem consistencyMultiplier_bounds_witness :
    1/2 ≤ consistencyMultiplier [100000, 900000]
      ∧ consistencyMultiplier [100000, 900000] ≤ 1
      ∧ consistencyMultiplier [100000, 900000] = 1/2 := by
  have h := consistencyMultiplier_bounds [100000, 900000] (by decide) (by decide)
  exact ⟨h.1, h.2.1, h.2.2⟩

/-- The population variance of the example values. -/
theorem exampleVariance_eq :
    calculateVariance [(300000:ℚ), 310000, 290000] = 200000000/3 := by
  unfold calculateVariance
  norm_num

/-- The population standard deviation of the example values as a real
square root. -/
theorem exampleStdDev_eq :
    calculateStandardDeviation [(300000:ℚ), 310000, 290000]
      = Real.sqrt (200000000/3) := by
  unfold calculateStandardDeviation
  rw [if_neg (by norm_num), exampleVariance_eq]
  norm_num

/-- Lower bound of the example standard deviation. -/
theorem exampleStdDev_gt : (8164:ℝ) < Real.sqrt (200000000/3) :=
  (Real.lt_sqrt (by norm_num)).mpr (by norm_num)

/-- Upper bound of the example standard deviation. -/
theorem exampleStdDev_lt : Real.sqrt (200000000/3) < 8165 :=
  (Real.sqrt_lt' (by norm_num)).mpr (by norm_num)

/-- On the example values the coefficient of variation is far below one
half, so the multiplier is not clamped. -/
theorem exampleMultiplier_eq :
    consistencyMultiplier [(300000:ℚ), 310000, 290000]
      = 1 - Real.sqrt (200000000/3) / 300000 := by
  unfold consistencyMultiplier
  rw [exampleStdDev_eq]
  have h2 := exampleStdDev_lt
  generalize hs : Real.sqrt ((200000000:ℝ)/3) = s at h2 ⊢
  have hle : (1:ℝ)/2 ≤ 1 - s / 300000 := by linarith
  norm_num
  exact hle

/-- C2: on the estimates [300000, 310000, 290000] with recorded
confidences [80, 85, 70] the reconciliation returns average 300000,
range {290000, 310000}, and overall confidence 76, the rounding of the
mean confidence 235/3 discounted by the consistency multiplier built
from the population standard deviation, which lies between 8164 and
8165. -/
theorem reconciliation_exact_example :
    (calculateAnalysisMetrics exampleEstimates).averageEstimate = 300000
      ∧ (calculateAnalysisMetrics exampleEstimates).estimateRange
          = { min := 290000, max := 310000 }
      ∧ (calculateAnalysisMetrics exampleEstimates).confidence.overall = 76
      ∧ 8164 < calculateStandardDeviation [(300000:ℚ), 310000, 290000]
      ∧ calculateStandardDeviation [(300000:ℚ), 310000, 290000] < 8165 := by
  refine ⟨?_, ?_, ?_, ?_, ?_⟩
  · unfold calculateAnalysisMetrics
    norm_num [exampleEstimates, isValidPrice, roundQ]
  · unfold calculateAnalysisMetrics
    norm_num [exampleEstimates, isValidPrice, listMin, listMax]
  · unfold calculateAnalysisMetrics
    norm_num [exampleEstimates, isValidPrice, confidenceStep, jsTruthyNum,
      upsertAssoc]
    rw [exampleMultiplier_eq]
    have h1 := exampleStdDev_gt
    have h2 := exampleStdDev_lt
    generalize hs : Real.sqrt ((200000000:ℝ)/3) = s at h1 h2 ⊢
    rw [jsRound, Int.floor_eq_iff]
    constructor <;> push_cast <;> linarith
  · rw [exampleStdDev_eq]; exact exampleStdDev_gt
  · rw [exampleStdDev_eq]; exact exampleStdDev_lt

/-- C6 counterexample: a valid estimate with a recorded confidence of 0
from an unlisted provider does not contribute its recorded 0; the
truthiness test of the confidence loop treats 0 as absent, so the
default 65 enters both the byProvider map and the overall average. -/
theorem confidence_contribution_counterexample :
    zeroConfidenceEstimate.confidence = some 0
      ∧ isValidPrice (some zeroConfidenceEstimate.estimate) = true
      ∧ (calculateAnalysisMetrics [zeroConfidenceEstimate]).confidence.byProvider
          = [("unlisted_provider", 65)]
      ∧ (calculateAnalysisMetrics [zeroConfidenceEstimate]).confidence.overall = 65
      ∧ ((65 : ℚ) ≠ 0) := by
  have hdef : getDefaultConfidence "unlisted_provider" = 65 := rfl
  have hmult : consistencyMultiplier [100] = 1 := by
    unfold consistencyMultiplier calculateStandardDeviation
    norm_num
  refine ⟨rfl, by decide, ?_, ?_, by norm_num⟩
  · unfold calculateAnalysisMetrics
    norm_num [zeroConfidenceEstimate, isValidPrice, confidenceStep, jsTruthyNum,
      hdef, upsertAssoc]
  · unfold calculateAnalysisMetrics
    norm_num [zeroConfidenceEstimate, isValidPrice, confidenceStep, jsTruthyNum,
      hdef, upsertAssoc, hmult]
    rw [jsRound, Int.floor_eq_iff]
    constructor <;> push_cast <;> norm_num

/-- C6 amended: every valid estimate contributes exactly one confidence
value to the total, the count and the byProvider map; that value is the
recorded confidence when it is present and nonzero, and otherwise the
fixed provider default, a recorded 0 being replaced by the default just
as an absent one is; any provider outside the reliability table defaults
to exactly 65. -/
theorem confidence_contribution_amended (ests : List Estimate) (p : String)
    (hp : p ∉ (["homes_com_corelogic", "homes_com_collateral", "homes_com_quantarium",
      "homes_com_regeodata", "homes_com_homesgenie", "zillow", "redfin",
      "realtor_com", "movoto"] : List String)) :
    ((ests.filter (fun est => isValidPrice (some est.estimate))).foldl
          confidenceStep ([], 0, 0)).2.1 =
        ((ests.filter (fun est => isValidPrice (some est.estimate))).map
          contributedConfidence).sum
      ∧ ((ests.filter (fun est => isValidPrice (some est.estimate))).foldl
            confidenceStep ([], 0, 0)).2.2 =
          (ests.filter (fun est => isValidPrice (some est.estimate))).length
      ∧ ((ests.filter (fun est => isValidPrice (some est.estimate))).foldl
            confidenceStep ([], 0, 0)).1 =
          (ests.filter (fun est => isValidPrice (some est.estimate))).foldl
            (fun mm e => upsertAssoc mm e.provider (contributedConfidence e)) []
      ∧ getDefaultConfidence p = 65
      ∧ (∀ est : Estimate, ∀ c : ℚ, est.confidence = some c → c ≠ 0 →
          contributedConfidence est = c)
      ∧ (∀ est : Estimate, est.confidence = none →
          contributedConfidence est = getDefaultConfidence est.provider)
      ∧ (∀ est : Estimate, est.confidence = some 0 →
          contributedConfidence est = getDefaultConfidence est.provider) := by
  rcases confidenceLoop_spec (ests.filter (fun est => isValidPrice (some est.estimate)))
    [] 0 0 with ⟨h1, h2, h3⟩
  refine ⟨by simpa using h1, by simpa using h2, h3, ?_, ?_, ?_, ?_⟩
  · simp only [List.mem_cons, List.not_mem_nil, or_false, not_or] at hp
    obtain ⟨n1, n2, n3, n4, n5, n6, n7, n8, n9⟩ := hp
    simp [getDefaultConfidence, n1, n2, n3, n4, n5, n6, n7, n8, n9]
  · intro est c hc hc0
    simp [contributedConfidence, hc, hc0]
  · intro est hc
    simp [contributedConfidence, hc]
  · intro est hc
    simp [contributedConfidence, hc]

/-- Witness: the amended claim at a concrete estimate list and the
unlisted provider name opendoor. -/
theorem confidence_contribution_witness :
    (([zeroConfidenceEstimate].filter
          (fun est => isValidPrice (some est.estimate))).foldl
        confidenceStep ([], 0, 0)).2.1 =
      (([zeroConfidenceEstimate].filter
          (fun est => isValidPrice (some est.estimate))).map
        contributedConfidence).sum
      ∧ getDefaultConfidence "opendoor" = 65 := by
  have h := confidence_contribution_amended [zeroConfidenceEstimate] "opendoor"
    (by decide)
  exact ⟨h.1, h.2.2.2.1⟩

/-- C7: for every combination of per-provider behaviors the collected
scrapingResults map has exactly one terminal entry per configured
provider, five in all, in provider order; and a provider whose every
attempt throws still ends as a recorded failure result carrying the
thrown message, never as a fault escaping the retry boundary. -/
theorem orchestrator_completeness (scrape : String → ℕ → AttemptOutcome)
    (msg : String) :
    (runScrapers scrape).map Prod.fst = SCRAPERS
      ∧ (runScrapers scrape).length = 5
      ∧ (∀ name ∈ SCRAPERS, ∃ r : ScrapingResult, (name, r) ∈ runScrapers scrape)
      ∧ (∀ name, (∀ n, scrape name n = .thrown msg) →
          (retryRun (scrape name)).1 = mkThrownResult msg) := by
  refine ⟨?_, ?_, ?_, ?_⟩
  · rw [runScrapers, List.map_map]
    exact List.map_id SCRAPERS
  · simp [runScrapers, SCRAPERS]
  · intro name hname
    exact ⟨(retryRun (scrape name)).1, List.mem_map.mpr ⟨name, hname, rfl⟩⟩
  · intro name hthrow
    rw [retryRun_eq (scrape name), hthrow 1, hthrow 2]

/-- Witness: a mixed run where zillow succeeds, redfin fails explicitly
and the rest throw still yields the five-entry provider map, and the
all-throwing movoto entry is the converted failure result. -/
theorem orchestrator_completeness_witness :
    (runScrapers scrapeMixed).map Prod.fst = SCRAPERS
      ∧ (runScrapers scrapeMixed).length = 5
      ∧ (retryRun (scrapeMixed "movoto")).1 = mkThrownResult "proxy down" := by
  have h := orchestrator_completeness scrapeMixed "proxy down"
  exact ⟨h.1, h.2.1, h.2.2.2 "movoto" (fun _ => rfl)⟩

/-- C9: in every reachable limiter state at most K operations are in
flight, and the admission order extends to the submission order with the
still-queued tasks behind it, so queued work is admitted strictly in
submission order; the configured capacity is 2. -/
theorem limiter_bound_and_order (K : ℕ) (s : LimiterState)
    (h : LimiterReachable K s) :
    s.running ≤ K ∧ s.submitted = s.admitted ++ s.queue
      ∧ CONCURRENT_SCRAPERS = 2 := by
  have main : s.running ≤ K ∧ s.submitted = s.admitted ++ s.queue := by
    induction h with
    | refl => exact ⟨Nat.zero_le K, rfl⟩
    | tail _ step ih =>
      rcases ih with ⟨ihr, ihe⟩
      cases step with
      | submitRun t hr hq =>
        exact ⟨Nat.succ_le_of_lt hr, by simp [ihe, hq]⟩
      | submitWait t hcond =>
        exact ⟨ihr, by simp [ihe]⟩
      | finishIdle hr hq =>
        exact ⟨le_trans (Nat.sub_le _ _) ihr, by simp [ihe, hq]⟩
      | finishNext t rest hr hq =>
        exact ⟨ihr, by simp [ihe, hq]⟩
  exact ⟨main.1, main.2, rfl⟩

/-- Witness: the state after one immediately admitted submission under
capacity 2. -/
theorem limiter_bound_and_order_witness :
    ({ running := 1, queue := [], admitted := [7], submitted := [7] }
        : LimiterState).running ≤ 2
      ∧ ({ running := 1, queue := [], admitted := [7], submitted := [7] }
          : LimiterState).submitted =
        ({ running := 1, queue := [], admitted := [7], submitted := [7] }
          : LimiterState).admitted ++
        ({ running := 1, queue := [], admitted := [7], submitted := [7] }
          : LimiterState).queue
      ∧ CONCURRENT_SCRAPERS = 2 :=
  limiter_bound_and_order 2 _
    (Relation.ReflTransGen.single
      (@LimiterStep.submitRun 2 limiterInit 7 (by decide) rfl))

/-- C4: in every run, every provider whose outcome succeeded has its
estimate upsert, keyed by the derived property hash and its own name, in
the run trace before analyzeProperty returns; and the modelled
persistence upsert is create-or-replace, leaving the new estimate as the
current record at (propertyId, provider). -/
theorem successful_outcomes_upserted (scrape : String → ℕ → AttemptOutcome)
    (md5 : String → String) (address city state zipCode : String) (name : String)
    (hname : name ∈ SCRAPERS)
    (hsucc : (retryRun (scrape name)).1.success = true)
    (store : List ((String × String) × AVMData)) (pid : String) (avm : AVMData) :
    RunEvent.upsertEstimate (generatePropertyHash md5 address city state zipCode) name
        ∈ analyzePropertyTrace scrape md5 address city state zipCode
      ∧ assocLookup (saveAVMEstimate store pid avm) (pid, avm.provider)
          = some avm := by
  refine ⟨?_, assocLookup_saveAVMEstimate store pid avm⟩
  have hmem : (name, (retryRun (scrape name)).1) ∈ runScrapers scrape :=
    List.mem_map.mpr ⟨name, hname, rfl⟩
  have hup : RunEvent.upsertEstimate
      (generatePropertyHash md5 address city state zipCode) name
      ∈ runUpsertEvents (generatePropertyHash md5 address city state zipCode)
          (runScrapers scrape) := by
    unfold runUpsertEvents
    exact List.mem_map.mpr ⟨(name, (retryRun (scrape name)).1),
      List.mem_filter.mpr ⟨hmem, by simpa using hsucc⟩, rfl⟩
  by_cases hcond : (runScrapers scrape).any (fun p => hasProperty p.2)
  · simp only [analyzePropertyTrace, hcond, if_true]
    exact List.mem_append_left _ hup
  · simp only [analyzePropertyTrace, hcond, if_false]
    exact hup

/-- Witness: in the mixed run the successful zillow outcome has its
upsert in the trace, and upserting into an empty store leaves the
estimate current. -/
theorem successful_outcomes_upserted_witness :
    RunEvent.upsertEstimate
        (generatePropertyHash id "1 Main St" "Springfield" "IL" "62701") "zillow"
        ∈ analyzePropertyTrace scrapeMixed id "1 Main St" "Springfield" "IL" "62701"
      ∧ assocLookup (saveAVMEstimate [] "prop-1" exampleAVMData)
          ("prop-1", exampleAVMData.provider) = some exampleAVMData :=
  successful_outcomes_upserted scrapeMixed id "1 Main St" "Springfield" "IL" "62701"
    "zillow" (by decide) (by decide) [] "prop-1" exampleAVMData

/-- The run-level failure test of analyzeProperty is false exactly when
no provider result both succeeded and carried property data. -/
theorem runScrapers_any_false_iff (scrape : String → ℕ → AttemptOutcome) :
    (runScrapers scrape).any (fun p => hasProperty p.2) = false
      ↔ ∀ name ∈ SCRAPERS, hasProperty (retryRun (scrape name)).1 = false := by
  rw [List.any_eq_false]
  constructor
  · intro h name hname
    have := h (name, (retryRun (scrape name)).1) (List.mem_map.mpr ⟨name, hname, rfl⟩)
    simpa using this
  · intro h x hx
    rcases List.mem_map.mp hx with ⟨name, hname, rfl⟩
    simpa using h name hname

/-- C1 counterexample: when every provider reports success but no payload
carries a property field, the run still fails with the
no-source-identified error, although a successful extraction exists. -/
theorem analyzeProperty_failure_counterexample :
    (retryRun (scrapeSuccessNoProperty "zillow")).1.success = true
      ∧ analyzeProperty scrapeSuccessNoProperty id dbEmptyRead
          "1 Main St" "Springfield" "IL" "62701"
        = .error "Failed to identify property from any scraping source" := by
  constructor
  · decide
  · rfl

/-- C1 amended: analyzeProperty fails with the no-source-identified error
exactly when no provider produced a successful extraction whose payload
contains property data; that error is the sole run-level failure; and in
that case reconciliation is never reached. -/
theorem analyzeProperty_failure_amended (scrape : String → ℕ → AttemptOutcome)
    (md5 : String → String) (dbRead : Except String (List Estimate))
    (address city state zipCode : String) :
    (analyzeProperty scrape md5 dbRead address city state zipCode
        = .error "Failed to identify property from any scraping source"
      ↔ ∀ name ∈ SCRAPERS, hasProperty (retryRun (scrape name)).1 = false)
      ∧ (∀ e, analyzeProperty scrape md5 dbRead address city state zipCode = .error e →
          e = "Failed to identify property from any scraping source")
      ∧ ((∀ name ∈ SCRAPERS, hasProperty (retryRun (scrape name)).1 = false) →
          RunEvent.reconcile ∉
            analyzePropertyTrace scrape md5 address city state zipCode) := by
  refine ⟨?_, ?_, ?_⟩
  · by_cases hcond : (runScrapers scrape).any (fun p => hasProperty p.2) = true
    · constructor
      · intro habs
        exfalso
        simp [analyzeProperty, hcond] at habs
      · intro hall
        have hfalse := (runScrapers_any_false_iff scrape).mpr hall
        rw [hfalse] at hcond
        simp at hcond
    · rw [Bool.not_eq_true] at hcond
      constructor
      · intro _
        exact (runScrapers_any_false_iff scrape).mp hcond
      · intro _
        simp [analyzeProperty, hcond]
  · intro e he
    by_cases hcond : (runScrapers scrape).any (fun p => hasProperty p.2) = true
    · simp [analyzeProperty, hcond] at he
    · rw [Bool.not_eq_true] at hcond
      simp [analyzeProperty, hcond] at he
      exact he.symm
  · intro hall
    have hfalse := (runScrapers_any_false_iff scrape).mpr hall
    simp [analyzePropertyTrace, hfalse, runUpsertEvents]

/-- Witness: with every provider throwing, the run fails with the
distinct error and the trace holds no reconciliation event. -/
theorem analyzeProperty_failure_witness :
    analyzeProperty scrapeAllThrown id dbEmptyRead
        "1 Main St" "Springfield" "IL" "62701"
      = .error "Failed to identify property from any scraping source"
      ∧ RunEvent.reconcile ∉
          analyzePropertyTrace scrapeAllThrown id
            "1 Main St" "Springfield" "IL" "62701" := by
  have h := analyzeProperty_failure_amended scrapeAllThrown id dbEmptyRead
    "1 Main St" "Springfield" "IL" "62701"
  exact ⟨h.1.mpr (by decide), h.2.2 (by decide)⟩

end AVM
